import Mathlib

/-
  Verification development for the smart-factory analytics server.

  The definitions below are a shallow embedding of the Python sources:
    app/utils/opcua_parsers.py   (OPCUAParser)
    app/services/opcua_explorer.py (OPCUAExplorer)
    app/services/opcua_manager.py  (OPCUAManager retry loop and monitor)
    app/services/ethernet_ip_manager.py (EthernetIPManager retry loop)
  Strings are modelled as Lean strings, Python re.search calls for the three
  concrete patterns used by the code are implemented directly over character
  lists, asynchronous loops are modelled as step functions iterated over a
  step index, and calls into the external protocol-client library are
  modelled as oracle fields carried by the node / outcome data.
-/

namespace SFA

/-! ## Character and string helpers (Python string primitives) -/

/-- ASCII lower-casing of one character, as Char.toLower does it. -/
def pyLowerChar (c : Char) : Char :=
  if 'A' ≤ c ∧ c ≤ 'Z' then Char.ofNat (c.toNat + 32) else c

/-- Python str.lower restricted to ASCII, which is what the code compares. -/
def pyLower (s : String) : String := String.mk (s.toList.map pyLowerChar)

/-- Python "needle in hay" substring test, on character lists. -/
def containsSub (needle : List Char) : List Char → Bool
  | [] => needle.isEmpty
  | c :: cs => needle.isPrefixOf (c :: cs) || containsSub needle cs

/-- Python "needle in hay" substring test, on strings. -/
def strContainsSub (hay needle : String) : Bool :=
  containsSub needle.toList hay.toList

/-- ASCII letter test, the regex class with ranges A-Z and a-z. -/
def isAsciiAlpha (c : Char) : Bool :=
  ('a' ≤ c && c ≤ 'z') || ('A' ≤ c && c ≤ 'Z')

/-- Python regex whitespace class. -/
def isPySpace (c : Char) : Bool :=
  c = ' ' || c = '\t' || c = '\n' || c = '\r' || c = '\x0b' || c = '\x0c'

/-- Models re.search for a pattern of shape key([^,]+): finds the leftmost
occurrence of the literal key followed by at least one non-comma character
and returns the maximal run of non-comma characters after it. -/
def searchKeyCapture (key : List Char) : List Char → Option (List Char)
  | [] => none
  | c :: cs =>
    if key.isPrefixOf (c :: cs) then
      let run := ((c :: cs).drop key.length).takeWhile (fun ch => ch != ',')
      if run.isEmpty then searchKeyCapture key cs else some run
    else searchKeyCapture key cs

/-- Models re.search for a pattern of shape key(\d+): finds the leftmost
occurrence of the literal key followed by at least one digit and returns the
maximal digit run after it. -/
def searchKeyDigits (key : List Char) : List Char → Option (List Char)
  | [] => none
  | c :: cs =>
    if key.isPrefixOf (c :: cs) then
      let run := ((c :: cs).drop key.length).takeWhile Char.isDigit
      if run.isEmpty then searchKeyDigits key cs else some run
    else searchKeyDigits key cs

/-- At the current position, match the regex tail alpha-run, colon, optional
whitespace, at least one digit; returns the alpha run on success. -/
def alphaColonDigits (s : List Char) : Option (List Char) :=
  let run := s.takeWhile isAsciiAlpha
  if run.isEmpty then none
  else
    match (s.drop run.length) with
    | ':' :: rest =>
      match rest.dropWhile isPySpace with
      | d :: _ => if d.isDigit then some run else none
      | [] => none
    | _ => none

/-- Lazy scan for the tail of the NodeIdType pattern: the dot in the regex
does not cross a newline, so the scan stops at one. -/
def scanTypeMatch : List Char → Option (List Char)
  | [] => none
  | c :: cs =>
    match alphaColonDigits (c :: cs) with
    | some run => some run
    | none => if c = '\n' then none else scanTypeMatch cs

/-- Models re.search for the NodeIdType pattern used by parse_node_id:
literal key, a lazy gap, an alpha run captured as group 1, a colon,
whitespace, digits. -/
def searchTypePattern (key : List Char) : List Char → Option (List Char)
  | [] => none
  | c :: cs =>
    if key.isPrefixOf (c :: cs) then
      match scanTypeMatch ((c :: cs).drop key.length) with
      | some run => some run
      | none => searchTypePattern key cs
    else searchTypePattern key cs

/-- Digits to a natural number. -/
def digitsToNat (ds : List Char) : Nat :=
  ds.foldl (fun acc c => acc * 10 + (c.toNat - '0'.toNat)) 0

/-- Models Python int() on a captured string: optional surrounding
whitespace, optional sign, then at least one digit; anything else raises,
modelled as none. -/
def pyIntOfChars (s : List Char) : Option Int :=
  let t := (((s.dropWhile isPySpace).reverse.dropWhile isPySpace).reverse)
  match t with
  | '-' :: ds =>
    if !ds.isEmpty && ds.all Char.isDigit then some (-(digitsToNat ds : Int)) else none
  | '+' :: ds =>
    if !ds.isEmpty && ds.all Char.isDigit then some (digitsToNat ds : Int) else none
  | ds =>
    if !ds.isEmpty && ds.all Char.isDigit then some (digitsToNat ds : Int) else none

/-! ## OPCUAParser.parse_node_id -/

/-- Result dictionary of OPCUAParser.parse_node_id: the ok variant carries
the keys of the successful branch, the err variant the keys of the except
branch (raw, formatted, simple, error). -/
inductive ParsedNodeId where
  | ok (raw identifier : String) (namespaceIdx : Int) (node_type formatted simple : String)
  | err (raw formatted simple error : String)
deriving DecidableEq, Repr

/-- The simple key, present in both result shapes. -/
def ParsedNodeId.simple : ParsedNodeId → String
  | .ok _ _ _ _ _ s => s
  | .err _ _ s _ => s

/-- The formatted key, present in both result shapes. -/
def ParsedNodeId.formatted : ParsedNodeId → String
  | .ok _ _ _ _ f _ => f
  | .err _ f _ _ => f

/-- OPCUAParser.parse_node_id: regex extraction of identifier, namespace
index and node-id type from the client library debug string, then assembly
of formatted and simple identifiers.  The only statement in the try block
that can raise is int() on the namespace capture; that failure takes the
except branch. -/
def parse_node_id (s : String) : ParsedNodeId :=
  let cs := s.toList
  let identMatch := searchKeyCapture ("Identifier=".toList) cs
  let nsMatch := searchKeyCapture ("NamespaceIndex=".toList) cs
  let typeMatch := searchTypePattern ("NodeIdType=".toList) cs
  let identifier := match identMatch with
    | some r => String.mk r
    | none => "Unknown"
  let nsParsed : Option Int := match nsMatch with
    | some r => pyIntOfChars r
    | none => some 0
  match nsParsed with
  | none => ParsedNodeId.err s s s "invalid literal for int()"
  | some ns =>
    let node_type := match typeMatch with
      | some r => String.mk r
      | none => "Unknown"
    let nsStr := toString ns
    let formattedId :=
      if node_type = "Numeric" then "i=" ++ identifier
      else if node_type = "String" then "s=" ++ identifier
      else "ns=" ++ nsStr ++ ";" ++ identifier
    ParsedNodeId.ok s identifier ns node_type
      ("ns=" ++ nsStr ++ ";" ++ formattedId)
      (if node_type = "Numeric" then "ns=" ++ nsStr ++ ";i=" ++ identifier
       else "ns=" ++ nsStr ++ ";s=" ++ identifier)

/-! ## OPCUAParser.parse_data_type -/

/-- The DATA_TYPE_MAP dictionary, keyed by the captured digit string. -/
def dataTypeMap (id : String) : Option String :=
  if id = "1" then some "Boolean" else if id = "2" then some "SByte"
  else if id = "3" then some "Byte" else if id = "4" then some "Int16"
  else if id = "5" then some "UInt16" else if id = "6" then some "Int32"
  else if id = "7" then some "UInt32" else if id = "8" then some "Int64"
  else if id = "9" then some "UInt64" else if id = "10" then some "Float"
  else if id = "11" then some "Double" else if id = "12" then some "String"
  else if id = "13" then some "DateTime" else if id = "14" then some "Guid"
  else if id = "15" then some "ByteString" else if id = "16" then some "XmlElement"
  else if id = "17" then some "NodeId" else if id = "18" then some "ExpandedNodeId"
  else if id = "19" then some "StatusCode" else if id = "20" then some "QualifiedName"
  else if id = "21" then some "LocalizedText" else if id = "22" then some "ExtensionObject"
  else if id = "23" then some "DataValue" else if id = "24" then some "Variant"
  else if id = "25" then some "DiagnosticInfo" else none

/-- Result dictionary of OPCUAParser.parse_data_type. -/
structure ParsedDataType where
  raw : String
  numeric_id : Option String
  name : Option String
  formatted : String
deriving DecidableEq, Repr

/-- OPCUAParser.parse_data_type: extracts a numeric identifier and maps it
through DATA_TYPE_MAP, defaulting to an Unknown(id) label. -/
def parse_data_type (s : String) : ParsedDataType :=
  match searchKeyDigits ("Identifier=".toList) s.toList with
  | some run =>
    let nid := String.mk run
    let nm := match dataTypeMap nid with
      | some n => n
      | none => "Unknown(" ++ nid ++ ")"
    { raw := s, numeric_id := some nid, name := some nm, formatted := nm }
  | none => { raw := s, numeric_id := none, name := none, formatted := s }

/-! ## OPCUAParser.should_include_node and the category heuristic -/

/-- The useful_system_vars allow-list for namespace 0. -/
def usefulSystemVars : List String :=
  ["servername", "serverstatus", "currenttime", "starttime", "buildinfo", "servicelevel"]

/-- OPCUAParser.should_include_node over the fields the Python dict lookup
reads: namespace (default 0), browse_name and display_name (default empty
string).  Namespace indices are unsigned in OPC UA, hence Nat. -/
def should_include_node (namespaceIdx : Nat) (browse_name display_name : String) : Bool :=
  if namespaceIdx = 0 then
    decide (pyLower browse_name ∈ usefulSystemVars) ||
      decide (pyLower display_name ∈ usefulSystemVars)
  else
    decide (namespaceIdx > 0)

/-- Category assignment of OPCUAParser.enhance_node_info: first matching
keyword set wins, default other. -/
def categoryOf (browse_name : String) : String :=
  let b := pyLower browse_name
  if ["temp", "temperature", "heat"].any (fun t => strContainsSub b t) then "temperature"
  else if ["pressure", "press"].any (fun t => strContainsSub b t) then "pressure"
  else if ["speed", "rpm", "velocity"].any (fun t => strContainsSub b t) then "speed"
  else if ["volt", "voltage", "power"].any (fun t => strContainsSub b t) then "electrical"
  else if ["count", "production", "total"].any (fun t => strContainsSub b t) then "counter"
  else "other"

/-! ## OPCUAExplorer: nodes, browsing, recursive browsing, search

A node handle of the client library is modelled by the data the explorer
reads from it; each read that the Python code performs inside a try block is
an oracle field (a read result, or a flag saying the read raises). -/

/-- Result of one read call into the client library. -/
inductive ReadResult where
  | ok (v : String)
  | err (e : String)
deriving DecidableEq, Repr

/-- The data the explorer can read from one node handle.  metaFails models
the browse-name / display-name / node-class reads raising, which makes the
per-child try block skip the child. -/
structure ChildSpec where
  nodeIdStr : String
  nodeNamespaceIdx : Nat
  metaFails : Bool
  browseName : String
  displayName : String
  nodeClassNum : Nat
  valueRead : ReadResult
  dataTypeRead : ReadResult
  writableProbe : Option Bool
deriving DecidableEq, Repr

/-- A node of the address space: its readable data plus its children, as
returned by get_children. -/
inductive UATree where
  | node (spec : ChildSpec) (children : List UATree)

/-- Readable data of a tree node. -/
def UATree.spec : UATree → ChildSpec
  | .node s _ => s

/-- Children of a tree node, as get_children returns them. -/
def UATree.children : UATree → List UATree
  | .node _ cs => cs

/-- The NODE_CLASS_MAP dictionary with its Unknown(n) default. -/
def nodeClassMap (n : Nat) : String :=
  if n = 1 then "Object" else if n = 2 then "Variable"
  else if n = 4 then "Method" else if n = 8 then "ObjectType"
  else if n = 16 then "VariableType" else if n = 32 then "ReferenceType"
  else if n = 64 then "DataType"
  else "Unknown(" ++ toString n ++ ")"

/-- Mirror of the OPCUANodeInfo pydantic model (browse_server_nodes output).
The namespace field is renamed namespaceIdx because namespace is a Lean
keyword. -/
structure OPCUANodeInfo where
  node_id : String
  browse_name : String
  display_name : String
  node_class : String
  namespaceIdx : Nat
  value : Option String
  data_type : Option String
  writable : Option Bool
deriving DecidableEq, Repr

/-- The variable-read block of browse_server_nodes: read_value, then
read_data_type, then the writability probe; an exception in either of the
first two lands in the except branch, which overwrites value with the error
text and sets data_type to Unknown, leaving writable unset. -/
def readVarFields (c : ChildSpec) : Option String × Option String × Option Bool :=
  match c.valueRead with
  | .err e => (some ("Erro ao ler: " ++ e), some "Unknown", none)
  | .ok v =>
    match c.dataTypeRead with
    | .err e => (some ("Erro ao ler: " ++ e), some "Unknown", none)
    | .ok d => (some v, some d, c.writableProbe)

/-- Record built for one child by browse_server_nodes. -/
def mkNodeInfo (c : ChildSpec) : OPCUANodeInfo :=
  let base : OPCUANodeInfo :=
    { node_id := c.nodeIdStr
      browse_name := c.browseName
      display_name := c.displayName
      node_class := nodeClassMap c.nodeClassNum
      namespaceIdx := c.nodeNamespaceIdx
      value := none, data_type := none, writable := none }
  if nodeClassMap c.nodeClassNum = "Variable" then
    let f := readVarFields c
    { base with value := f.1, data_type := f.2.1, writable := f.2.2 }
  else base

/-- OPCUAExplorer.browse_server_nodes on the start node: one record per
child whose metadata reads succeed, children with a raising metadata read
are skipped by the continue. -/
def browse_server_nodes (startNode : UATree) : List OPCUANodeInfo :=
  startNode.children.filterMap
    (fun c => if c.spec.metaFails then none else some (mkNodeInfo c.spec))

/-- OPCUAExplorer.find_node_by_name: filters the one-level browse from the
default start node by a case-insensitive substring match on browse or
display name. -/
def find_node_by_name (startNode : UATree) (name : String) : List OPCUANodeInfo :=
  (browse_server_nodes startNode).filter
    (fun node =>
      strContainsSub (pyLower node.browse_name) (pyLower name) ||
        strContainsSub (pyLower node.display_name) (pyLower name))

/-- One record of recursive_browse after enhance_node_info.  The parsed
sub-dictionaries are represented by their simple / formatted projections,
which are the fields the code propagates. -/
structure RecNodeRecord where
  node_id : String
  browse_name : String
  display_name : String
  node_class : String
  namespaceIdx : Nat
  depth : Nat
  value : Option String
  data_type : Option String
  node_id_simple : String
  data_type_simple : Option String
  is_relevant : Bool
  category : String
deriving DecidableEq, Repr

/-- The variable-read block of browse_recursive: an exception in read_value
or read_data_type overwrites value with the error text and leaves the
data_type key unset. -/
def recReadFields (c : ChildSpec) : Option String × Option String :=
  if nodeClassMap c.nodeClassNum = "Variable" then
    match c.valueRead with
    | .err e => (some ("Erro: " ++ e), none)
    | .ok v =>
      match c.dataTypeRead with
      | .err e => (some ("Erro: " ++ e), none)
      | .ok d => (some v, some d)
  else (none, none)

/-- OPCUAParser.enhance_node_info applied to the raw dict that
browse_recursive builds for a child at a given depth. -/
def recRecordOf (c : ChildSpec) (depth : Nat) : RecNodeRecord :=
  let f := recReadFields c
  { node_id := c.nodeIdStr
    browse_name := c.browseName
    display_name := c.displayName
    node_class := nodeClassMap c.nodeClassNum
    namespaceIdx := c.nodeNamespaceIdx
    depth := depth
    value := f.1
    data_type := f.2
    node_id_simple := (parse_node_id c.nodeIdStr).simple
    data_type_simple := f.2.map (fun d => (parse_data_type d).formatted)
    is_relevant := should_include_node c.nodeNamespaceIdx c.browseName c.displayName
    category := categoryOf c.browseName }

/-- The browse_recursive inner function of OPCUAExplorer.recursive_browse,
processing the children of one node at a given depth.  Fuel makes the
recursion structural; recursive_browse supplies maxDepth + 1, which is
enough because every descent is guarded by depth < maxDepth.  The early
return for depth > maxDepth is kept from the source. -/
def browseKidsFuel : Nat → List UATree → Nat → Nat → List RecNodeRecord
  | 0, _, _, _ => []
  | fuel + 1, kids, depth, maxDepth =>
    if maxDepth < depth then []
    else
      kids.foldr
        (fun c acc =>
          (if c.spec.metaFails then []
           else
             recRecordOf c.spec depth ::
               (if nodeClassMap c.spec.nodeClassNum = "Object" ∧ depth < maxDepth then
                 browseKidsFuel fuel c.children (depth + 1) maxDepth
               else [])) ++ acc)
        []

/-- OPCUAExplorer.recursive_browse: starts the inner recursion at the start
node with depth 0. -/
def recursive_browse (startNode : UATree) (maxDepth : Nat) : List RecNodeRecord :=
  browseKidsFuel (maxDepth + 1) startNode.children 0 maxDepth

/-! ## Connection managers: retry loop and health monitor

One endpoint is modelled by its metrics record plus the registry facts the
managers touch.  The retry loop of OPCUAManager._connect_to_server_with_retry
and EthernetIPManager._connect_device_with_retry is one step function,
parameterised by the effects that differ between the two managers; it is
iterated with a per-step running flag and connect outcome (the result of
_simple_connect respectively _connect_single_device).  statusHistory records
every value the status field takes, sleeps every retry-delay wait,
supervisors the number of retry-loop tasks spawned and not yet finished. -/

/-- OPCUAConnectionStatus / EthernetIPConnectionStatus values. -/
inductive ConnStatus where
  | connected
  | disconnected
  | connecting
  | ready
  | error
deriving DecidableEq, Repr

/-- Metrics and registry state for one endpoint. -/
structure EndpointState where
  status : ConnStatus
  statusHistory : List ConnStatus
  lastError : Option String
  clientRegistered : Bool
  activeSubscriptions : Nat
  latency : Option Rat
  supervisors : Nat
  sleeps : List Rat
  attemptsStarted : Nat
deriving DecidableEq, Repr

/-- Assign the status field, recording the value in the history. -/
def setStatus (s : ConnStatus) (st : EndpointState) : EndpointState :=
  { st with status := s, statusHistory := st.statusHistory ++ [s] }

/-- Endpoint state after OPCUAManager.initialize seeded the metrics: status
Disconnected, one connection task spawned. -/
def initialMetricsState : EndpointState :=
  { status := .disconnected
    statusHistory := [.disconnected]
    lastError := none
    clientRegistered := false
    activeSubscriptions := 0
    latency := none
    supervisors := 1
    sleeps := []
    attemptsStarted := 0 }

/-- Endpoint state after EthernetIPManager.initialize seeded the metrics:
status Ready, one connection task spawned. -/
def initialEthMetricsState : EndpointState :=
  { initialMetricsState with status := .ready, statusHistory := [.ready] }

/-- The retry delay actually used: the configured value clamped to the
floor of 2 time units by the max call in both managers. -/
def retryDelayUsed (cfg : Rat) : Rat := max cfg 2

/-- The per-manager parts of the retry loop: the retry policy from the
configuration, the effect of a successful connect attempt, the effect of a
failed attempt, and the last-error text written when the budget is
exhausted. -/
structure SupParams where
  retryAttempts : Nat
  retryDelayCfg : Rat
  onSuccess : EndpointState → EndpointState
  onFail : EndpointState → EndpointState
  exhaustMsg : String

/-- Control state of one retry loop. -/
structure LoopState where
  attempt : Nat
  finished : Bool
  result : Option Bool
deriving DecidableEq, Repr

/-- Loop control at entry of _connect_to_server_with_retry. -/
def initLoopState : LoopState := { attempt := 0, finished := false, result := none }

/-- One iteration of the retry loop: the while condition with the infinite
mode for retry_attempts = 0, one connect attempt, the attempt counter
increment for finite mode, the guarded sleep, and on loop exit the epilogue
that stamps Error and the exhaustion text in finite mode only. -/
def supStep (p : SupParams) (running outcome : Bool)
    (s : LoopState × EndpointState) : LoopState × EndpointState :=
    let l := s.1
    let st := s.2
    if l.finished then (l, st)
    else
      let infiniteRetry := p.retryAttempts = 0
      if running ∧ (infiniteRetry ∨ l.attempt < p.retryAttempts) then
        let st1 := { st with attemptsStarted := st.attemptsStarted + 1 }
        if outcome then
          ({ l with finished := true, result := some true }, p.onSuccess st1)
        else
          let st2 := p.onFail st1
          let attempt1 := if infiniteRetry then l.attempt else l.attempt + 1
          let st3 :=
            if running ∧ (infiniteRetry ∨ attempt1 < p.retryAttempts) then
              { st2 with sleeps := st2.sleeps ++ [retryDelayUsed p.retryDelayCfg] }
            else st2
          ({ l with attempt := attempt1 }, st3)
      else
        let st1 :=
          if infiniteRetry then st
          else { setStatus .error st with lastError := some p.exhaustMsg }
        ({ l with finished := true, result := some false }, st1)

/-- Iterate the retry loop: step n consumes the running flag and connect
outcome with index n. -/
def runSup (p : SupParams) (running outcomes : Nat → Bool) :
    Nat → LoopState × EndpointState → LoopState × EndpointState
  | 0, s => s
  | n + 1, s => supStep p (running n) (outcomes n) (runSup p running outcomes n s)

/-- Exhaustion message of the OPC UA manager. -/
def opcuaExhaustMsg (n : Nat) : String :=
  "Todas as " ++ toString n ++ " tentativas de conexão falharam."

/-- _simple_connect on success: registers the client, sets status Connected,
creates the subscription. -/
def opcuaOnSuccess (st : EndpointState) : EndpointState :=
  { setStatus .connected { st with clientRegistered := true } with activeSubscriptions := 1 }

/-- Retry-loop parameters of OPCUAManager._connect_to_server_with_retry: a
failed _simple_connect leaves the metrics untouched. -/
def opcuaParams (retryAttempts : Nat) (retryDelayCfg : Rat) : SupParams :=
  { retryAttempts := retryAttempts
    retryDelayCfg := retryDelayCfg
    onSuccess := opcuaOnSuccess
    onFail := id
    exhaustMsg := opcuaExhaustMsg retryAttempts }

/-- Exhaustion message of the Ethernet/IP manager. -/
def ethExhaustMsg (n : Nat) : String :=
  "Todas as " ++ toString n ++ " tentativas falharam"

/-- _connect_single_device on success: connection stored by
_blocking_connect, status Connected. -/
def ethOnSuccess (st : EndpointState) : EndpointState :=
  setStatus .connected { st with clientRegistered := true }

/-- _connect_single_device on failure sets status Error for that attempt. -/
def ethOnFail (st : EndpointState) : EndpointState := setStatus .error st

/-- Retry-loop parameters of EthernetIPManager._connect_device_with_retry. -/
def ethParams (retryAttempts : Nat) (retryDelayCfg : Rat) : SupParams :=
  { retryAttempts := retryAttempts
    retryDelayCfg := retryDelayCfg
    onSuccess := ethOnSuccess
    onFail := ethOnFail
    exhaustMsg := ethExhaustMsg retryAttempts }

/-- One probe of OPCUAManager._monitor_connections for one endpoint: only
endpoints present in the clients dict are probed; a successful probe stores
the latency and re-stamps Connected; a failing probe stamps Error, records
the error text, and, when the server config is found, unconditionally
spawns a new retry-loop task.  The client handle is not removed. -/
def monitorProbe (probeOk : Bool) (probeErr : String) (lat : Rat)
    (configPresent : Bool) (st : EndpointState) : EndpointState :=
  if st.clientRegistered then
    if probeOk then
      setStatus .connected { st with latency := some lat }
    else
      let st1 := { setStatus .error st with lastError := some probeErr }
      if configPresent then { st1 with supervisors := st1.supervisors + 1 } else st1
  else st

/-- A retry-loop task returning (its coroutine completing). -/
def supFinish (st : EndpointState) : EndpointState :=
  { st with supervisors := st.supervisors - 1 }

/-- OPCUAManager.get_active_connections_count over the metrics values. -/
def get_active_connections_count (metrics : List EndpointState) : Nat :=
  (metrics.filter (fun m => decide (m.status = ConnStatus.connected))).length

/-! ## Theorems -/

/-- C8: parse_node_id applied to the endpoint-native textual representation
of a node id with Identifier 84, NamespaceIndex 0 and NodeIdType Numeric
returns a result whose simple field is the string ns=0;i=84. -/
theorem C8_parse_node_id_numeric_roundtrip :
    (parse_node_id "NodeId(Identifier=84, NamespaceIndex=0, NodeIdType=<NodeIdType.Numeric: 2>)").simple
      = "ns=0;i=84" := by decide

/-- C9: should_include_node is true exactly when the namespace index is
non-zero, or it is zero and the lower-cased browse name or display name is
in the allow-list of server-metadata names. -/
theorem C9_should_include_node_iff (ns : Nat) (bn dn : String) :
    should_include_node ns bn dn = true ↔
      (ns ≠ 0 ∨ (ns = 0 ∧ (pyLower bn ∈ usefulSystemVars ∨ pyLower dn ∈ usefulSystemVars))) := by
  unfold should_include_node
  by_cases h : ns = 0
  · simp [h]
  · simp [h, Nat.pos_of_ne_zero h]

/-- Membership in a one-level browse: exactly the records of the immediate
children whose metadata reads succeed. -/
theorem mem_browse_server_nodes (root : UATree) (r : OPCUANodeInfo) :
    r ∈ browse_server_nodes root ↔
      ∃ c ∈ root.children, c.spec.metaFails = false ∧ r = mkNodeInfo c.spec := by
  unfold browse_server_nodes
  rw [List.mem_filterMap]
  constructor
  · rintro ⟨c, hc, hf⟩
    by_cases hm : c.spec.metaFails = true
    · simp [hm] at hf
    · simp [hm] at hf
      exact ⟨c, hc, by simpa using hm, hf.symm⟩
  · rintro ⟨c, hc, hm, rfl⟩
    exact ⟨c, hc, by simp [hm]⟩

/-- C10: every record returned by find_node_by_name is the record of an
immediate child of the start node (the search browses exactly one level)
whose lower-cased browse name or display name contains the lower-cased
search term; conversely every such child record is returned. -/
theorem C10_find_node_by_name_one_level (root : UATree) (term : String) (r : OPCUANodeInfo) :
    r ∈ find_node_by_name root term ↔
      ((∃ c ∈ root.children, c.spec.metaFails = false ∧ r = mkNodeInfo c.spec) ∧
        (strContainsSub (pyLower r.browse_name) (pyLower term) = true ∨
          strContainsSub (pyLower r.display_name) (pyLower term) = true)) := by
  unfold find_node_by_name
  rw [List.mem_filter, mem_browse_server_nodes]
  simp [Bool.or_eq_true]

/-- With no metadata-read failures, filtering on the metadata flag is the
plain map over the children. -/
theorem filterMapMeta_eq_map (l : List UATree) (h : ∀ c ∈ l, c.spec.metaFails = false) :
    (l.filterMap (fun c => if c.spec.metaFails then none else some (mkNodeInfo c.spec))) =
      l.map (fun c => mkNodeInfo c.spec) := by
  induction l with
  | nil => rfl
  | cons c rest ih =>
    have hc := h c (List.mem_cons_self c rest)
    simp [List.filterMap_cons, hc, ih (fun x hx => h x (List.mem_cons_of_mem c hx))]

/-- With no metadata-read failures, the one-level browse maps every child to
its record. -/
theorem browse_server_nodes_eq_map (root : UATree)
    (h : ∀ c ∈ root.children, c.spec.metaFails = false) :
    browse_server_nodes root = root.children.map (fun c => mkNodeInfo c.spec) :=
  filterMapMeta_eq_map root.children h

/-- The record of a Variable child whose value read raises carries the
error text as its value. -/
theorem mkNodeInfo_value_err (c : ChildSpec) (e : String)
    (hcls : nodeClassMap c.nodeClassNum = "Variable")
    (hval : c.valueRead = ReadResult.err e) :
    (mkNodeInfo c).value = some ("Erro ao ler: " ++ e) := by
  simp [mkNodeInfo, readVarFields, hcls, hval]

/-- C7: on a browse whose children all have successful metadata reads, the
result has one record per child, and a child classified Variable whose
value read raises still yields a record, carrying the error text as its
value. -/
theorem C7_browse_keeps_failing_variable (root : UATree)
    (h : ∀ c ∈ root.children, c.spec.metaFails = false)
    (i : Nat) (hi : i < root.children.length) (e : String)
    (hcls : nodeClassMap (root.children.get ⟨i, hi⟩).spec.nodeClassNum = "Variable")
    (hval : (root.children.get ⟨i, hi⟩).spec.valueRead = ReadResult.err e) :
    (browse_server_nodes root).length = root.children.length ∧
      ∃ r, (browse_server_nodes root).get? i = some r ∧
        r.value = some ("Erro ao ler: " ++ e) := by
  have hb := browse_server_nodes_eq_map root h
  have hlen : (browse_server_nodes root).length = root.children.length := by
    rw [hb, List.length_map]
  refine ⟨hlen, mkNodeInfo (root.children.get ⟨i, hi⟩).spec, ?_, ?_⟩
  · rw [hb, List.get?_map, List.get?_eq_get hi, Option.map_some']
  · exact mkNodeInfo_value_err _ e hcls hval

/-- A child specification for concrete scenarios. -/
def mkChild (nid bn : String) (cls : Nat) (vr : ReadResult) : ChildSpec :=
  { nodeIdStr := nid
    nodeNamespaceIdx := 2
    metaFails := false
    browseName := bn
    displayName := bn
    nodeClassNum := cls
    valueRead := vr
    dataTypeRead := ReadResult.ok "Int32"
    writableProbe := some true }

/-- Start node of the C7 scenario: three children with successful metadata
reads; the second is a Variable whose value read raises. -/
def c7Tree : UATree :=
  .node (mkChild "r" "Root" 1 (.ok "0"))
    [ .node (mkChild "a" "VarA" 2 (.ok "41")) []
    , .node (mkChild "b" "VarB" 2 (.err "BadAttributeIdInvalid")) []
    , .node (mkChild "c" "ObjC" 1 (.ok "0")) [] ]

/-- Witness for C7 at the concrete three-child scenario. -/
theorem C7_browse_keeps_failing_variable_witness :
    (browse_server_nodes c7Tree).length = c7Tree.children.length ∧
      ∃ r, (browse_server_nodes c7Tree).get? 1 = some r ∧
        r.value = some ("Erro ao ler: " ++ "BadAttributeIdInvalid") :=
  C7_browse_keeps_failing_variable c7Tree (by decide) 1 (by decide)
    "BadAttributeIdInvalid" (by decide) (by decide)

/-- Depth of a record produced by the recursive browse. -/
theorem recRecordOf_depth (c : ChildSpec) (d : Nat) : (recRecordOf c d).depth = d := rfl

/-- Node class of a record produced by the recursive browse. -/
theorem recRecordOf_node_class (c : ChildSpec) (d : Nat) :
    (recRecordOf c d).node_class = nodeClassMap c.nodeClassNum := rfl

/-- Unfolding of the recursive browse on a non-empty child list below the
depth cut-off. -/
theorem browseKidsFuel_cons (fuel : Nat) (c : UATree) (rest : List UATree)
    (depth maxDepth : Nat) (h : depth ≤ maxDepth) :
    browseKidsFuel (fuel + 1) (c :: rest) depth maxDepth =
      (if c.spec.metaFails then []
       else recRecordOf c.spec depth ::
         (if nodeClassMap c.spec.nodeClassNum = "Object" ∧ depth < maxDepth then
           browseKidsFuel fuel c.children (depth + 1) maxDepth
         else [])) ++ browseKidsFuel (fuel + 1) rest depth maxDepth := by
  have hg : ¬ (maxDepth < depth) := Nat.not_lt.mpr h
  conv_lhs => rw [browseKidsFuel]
  conv_rhs => rw [browseKidsFuel]
  rw [if_neg hg, if_neg hg]
  rfl

/-- Invariant of the recursive browse: every record sits between the depth
of the level browsed and the maximum depth, and every record strictly
deeper than the browsed level is witnessed by an Object record one level
shallower in the same output. -/
theorem browseKidsFuel_inv (fuel : Nat) :
    ∀ (kids : List UATree) (depth maxDepth : Nat),
      depth ≤ maxDepth →
      ∀ r ∈ browseKidsFuel fuel kids depth maxDepth,
        depth ≤ r.depth ∧ r.depth ≤ maxDepth ∧
          (depth < r.depth →
            ∃ q ∈ browseKidsFuel fuel kids depth maxDepth,
              q.depth + 1 = r.depth ∧ q.node_class = "Object") := by
  induction fuel with
  | zero =>
    intro kids depth maxDepth _ r hr
    simp [browseKidsFuel] at hr
  | succ fuel ih =>
    intro kids
    induction kids with
    | nil =>
      intro depth maxDepth hdm r hr
      rw [browseKidsFuel, if_neg (Nat.not_lt.mpr hdm)] at hr
      simp at hr
    | cons c rest ihr =>
      intro depth maxDepth hdm r hr
      rw [browseKidsFuel_cons fuel c rest depth maxDepth hdm] at hr
      rcases List.mem_append.mp hr with hr1 | hr2
      · by_cases hm : c.spec.metaFails = true
        · rw [if_pos hm] at hr1
          simp at hr1
        · rw [if_neg hm] at hr1
          rcases List.mem_cons.mp hr1 with rfl | hr1'
          · refine ⟨Nat.le_refl _, by simpa [recRecordOf_depth] using hdm, ?_⟩
            intro hlt
            rw [recRecordOf_depth] at hlt
            exact absurd hlt (Nat.lt_irrefl _)
          · by_cases hob : nodeClassMap c.spec.nodeClassNum = "Object" ∧ depth < maxDepth
            · rw [if_pos hob] at hr1'
              have hsub := ih c.children (depth + 1) maxDepth hob.2 r hr1'
              refine ⟨Nat.le_of_succ_le hsub.1, hsub.2.1, ?_⟩
              intro _
              rcases Nat.lt_or_ge (depth + 1) r.depth with hdeep | hshallow
              · obtain ⟨q, hq, hq1, hq2⟩ := hsub.2.2 hdeep
                refine ⟨q, ?_, hq1, hq2⟩
                rw [browseKidsFuel_cons fuel c rest depth maxDepth hdm]
                exact List.mem_append.mpr (Or.inl (by
                  rw [if_neg hm]
                  exact List.mem_cons.mpr (Or.inr (by rw [if_pos hob]; exact hq))))
              · have hr_eq : r.depth = depth + 1 := Nat.le_antisymm hshallow hsub.1
                refine ⟨recRecordOf c.spec depth, ?_, ?_, ?_⟩
                · rw [browseKidsFuel_cons fuel c rest depth maxDepth hdm]
                  exact List.mem_append.mpr (Or.inl (by
                    rw [if_neg hm]
                    exact List.mem_cons.mpr (Or.inl rfl)))
                · rw [recRecordOf_depth, hr_eq]
                · rw [recRecordOf_node_class]
                  exact hob.1
            · rw [if_neg hob] at hr1'
              simp at hr1'
      · have hrest := ihr depth maxDepth hdm r hr2
        refine ⟨hrest.1, hrest.2.1, ?_⟩
        intro hlt
        obtain ⟨q, hq, hq1, hq2⟩ := hrest.2.2 hlt
        refine ⟨q, ?_, hq1, hq2⟩
        rw [browseKidsFuel_cons fuel c rest depth maxDepth hdm]
        exact List.mem_append.mpr (Or.inr hq)

/-- C5: every record of recursive_browse has depth at most maxDepth, and
the traversal descends only through Object-class nodes: every record with
positive depth is witnessed by an Object record one level shallower. -/
theorem C5_recursive_browse_depth_and_descent (root : UATree) (maxDepth : Nat)
    (r : RecNodeRecord) (hr : r ∈ recursive_browse root maxDepth) :
    r.depth ≤ maxDepth ∧
      (0 < r.depth →
        ∃ q ∈ recursive_browse root maxDepth,
          q.depth + 1 = r.depth ∧ q.node_class = "Object") := by
  have h := browseKidsFuel_inv (maxDepth + 1) root.children 0 maxDepth (Nat.zero_le _) r hr
  exact ⟨h.2.1, h.2.2⟩

/-- Start node of the C5 witness scenario: an Object child containing a
Variable grandchild. -/
def c5Tree : UATree :=
  .node (mkChild "r" "Root" 1 (.ok "0"))
    [ .node (mkChild "o" "Obj" 1 (.ok "0"))
        [ .node (mkChild "v" "Var" 2 (.ok "7")) [] ] ]

/-- The depth-1 record of the C5 scenario. -/
def c5Rec : RecNodeRecord := recRecordOf (mkChild "v" "Var" 2 (.ok "7")) 1

/-- Witness for C5 at the concrete two-level scenario. -/
theorem C5_recursive_browse_depth_and_descent_witness :
    (c5Rec ∈ recursive_browse c5Tree 3) ∧
      (c5Rec.depth ≤ 3 ∧
        (0 < c5Rec.depth →
          ∃ q ∈ recursive_browse c5Tree 3,
            q.depth + 1 = c5Rec.depth ∧ q.node_class = "Object")) :=
  ⟨by decide, C5_recursive_browse_depth_and_descent c5Tree 3 c5Rec (by decide)⟩

/-- A run of the retry loop in which every connect attempt fails and the
running flag stays set. -/
def allFailRun (p : SupParams) (steps : Nat) (st0 : EndpointState) :
    LoopState × EndpointState :=
  runSup p (fun _ => true) (fun _ => false) steps (initLoopState, st0)

/-- State effect of one failing attempt of the retry loop. -/
def failStepState (p : SupParams) (slept : Bool) (st : EndpointState) : EndpointState :=
  let st1 := p.onFail { st with attemptsStarted := st.attemptsStarted + 1 }
  if slept then { st1 with sleeps := st1.sleeps ++ [retryDelayUsed p.retryDelayCfg] } else st1

/-- State after i failing attempts of a finite-budget retry loop. -/
def failRun (p : SupParams) : Nat → EndpointState → EndpointState
  | 0, st => st
  | i + 1, st => failStepState p (decide (i + 1 < p.retryAttempts)) (failRun p i st)

/-- Control evolution of a finite-budget retry loop while attempts keep
failing: after i of the allowed attempts the loop is still going with the
attempt counter at i. -/
theorem runSup_all_fail_ctrl (p : SupParams) (hN : p.retryAttempts ≠ 0) (st0 : EndpointState) :
    ∀ i, i ≤ p.retryAttempts →
      allFailRun p i st0 =
        ({ attempt := i, finished := false, result := none }, failRun p i st0) := by
  intro i
  induction i with
  | zero => intro _; rfl
  | succ i ih =>
    intro hi
    have hlt : i < p.retryAttempts := Nat.lt_of_succ_le hi
    show supStep p true false (allFailRun p i st0) = _
    rw [ih (Nat.le_of_lt hlt),
      show failRun p (i + 1) st0 =
        failStepState p (decide (i + 1 < p.retryAttempts)) (failRun p i st0) from rfl]
    generalize failRun p i st0 = stI
    unfold supStep failStepState
    by_cases hs : i + 1 < p.retryAttempts <;>
      simp [hN, hlt, hs]

/-- A finished retry loop performs no further work: the step function fixes
it. -/
theorem supStep_finished (p : SupParams) (r o : Bool) (s : LoopState × EndpointState)
    (h : s.1.finished = true) : supStep p r o s = s := by
  obtain ⟨l, st⟩ := s
  unfold supStep
  rw [if_pos h]


/-- A finite-budget retry loop whose attempts all fail: one step after the
budget is spent the loop exits through the epilogue, stamping Error and the
exhaustion message, and every later step leaves the state unchanged. -/
theorem runSup_exhaust (p : SupParams) (hN : p.retryAttempts ≠ 0) (st0 : EndpointState) (m : Nat) :
    allFailRun p (p.retryAttempts + 1 + m) st0 =
      ({ attempt := p.retryAttempts, finished := true, result := some false },
        { setStatus .error (failRun p p.retryAttempts st0) with lastError := some p.exhaustMsg }) := by
  induction m with
  | zero =>
    show supStep p true false (allFailRun p p.retryAttempts st0) = _
    rw [runSup_all_fail_ctrl p hN st0 p.retryAttempts (Nat.le_refl _)]
    generalize failRun p p.retryAttempts st0 = stI
    unfold supStep
    simp [hN]
  | succ m ih =>
    show supStep p true false (allFailRun p (p.retryAttempts + 1 + m) st0) = _
    rw [ih]
    exact supStep_finished p true false _ rfl

/-- A failing-attempt effect that preserves the attempt counter propagates
a clean count of started attempts through the loop. -/
theorem failRun_attemptsStarted (p : SupParams)
    (hp : ∀ st, (p.onFail st).attemptsStarted = st.attemptsStarted) :
    ∀ i st, (failRun p i st).attemptsStarted = st.attemptsStarted + i := by
  intro i
  induction i with
  | zero => intro st; rfl
  | succ i ih =>
    intro st
    rw [show failRun p (i + 1) st =
      failStepState p (decide (i + 1 < p.retryAttempts)) (failRun p i st) from rfl]
    have hI := ih st
    generalize hg : failRun p i st = stI
    rw [hg] at hI
    unfold failStepState
    by_cases hs : i + 1 < p.retryAttempts <;>
      simp [hs, hp, hI] <;> omega

/-- The Ethernet/IP per-attempt failure effect preserves the attempt
counter. -/
theorem ethOnFail_attemptsStarted (st : EndpointState) :
    (ethOnFail st).attemptsStarted = st.attemptsStarted := rfl

/-- C1: with a finite retry budget of N attempts, after N consecutive
failed connect attempts under a set running flag, both managers stamp the
endpoint status Error with the exhaustion text as last error, the loop is
finished, exactly N attempts were started, and no later step starts
another attempt. -/
theorem C1_finite_retry_exhaustion (N : Nat) (hN : 0 < N) (cfgO cfgE : Rat) (m : Nat) :
    (allFailRun (opcuaParams N cfgO) (N + 1 + m) initialMetricsState).2.status = ConnStatus.error ∧
    (allFailRun (opcuaParams N cfgO) (N + 1 + m) initialMetricsState).2.lastError = some (opcuaExhaustMsg N) ∧
    (allFailRun (opcuaParams N cfgO) (N + 1 + m) initialMetricsState).2.attemptsStarted = N ∧
    (allFailRun (opcuaParams N cfgO) (N + 1 + m) initialMetricsState).1.finished = true ∧
    (allFailRun (ethParams N cfgE) (N + 1 + m) initialEthMetricsState).2.status = ConnStatus.error ∧
    (allFailRun (ethParams N cfgE) (N + 1 + m) initialEthMetricsState).2.lastError = some (ethExhaustMsg N) ∧
    (allFailRun (ethParams N cfgE) (N + 1 + m) initialEthMetricsState).2.attemptsStarted = N ∧
    (allFailRun (ethParams N cfgE) (N + 1 + m) initialEthMetricsState).1.finished = true := by
  have hNe : N ≠ 0 := Nat.pos_iff_ne_zero.mp hN
  have hO := runSup_exhaust (opcuaParams N cfgO) hNe initialMetricsState m
  have hE := runSup_exhaust (ethParams N cfgE) hNe initialEthMetricsState m
  rw [show (opcuaParams N cfgO).retryAttempts = N from rfl] at hO
  rw [show (ethParams N cfgE).retryAttempts = N from rfl] at hE
  have haO := failRun_attemptsStarted (opcuaParams N cfgO) (fun _ => rfl) N initialMetricsState
  have haE := failRun_attemptsStarted (ethParams N cfgE) ethOnFail_attemptsStarted N initialEthMetricsState
  rw [hO, hE]
  refine ⟨rfl, rfl, ?_, rfl, rfl, rfl, ?_, rfl⟩
  · simpa [setStatus, initialMetricsState] using haO
  · simpa [setStatus, initialEthMetricsState, initialMetricsState] using haE

/-- Witness for C1 at budget 2, configured delay 1, one extra step. -/
theorem C1_finite_retry_exhaustion_witness :
    0 < 2 ∧
      ((allFailRun (opcuaParams 2 1) (2 + 1 + 1) initialMetricsState).2.status = ConnStatus.error ∧
      (allFailRun (opcuaParams 2 1) (2 + 1 + 1) initialMetricsState).2.lastError = some (opcuaExhaustMsg 2) ∧
      (allFailRun (opcuaParams 2 1) (2 + 1 + 1) initialMetricsState).2.attemptsStarted = 2 ∧
      (allFailRun (opcuaParams 2 1) (2 + 1 + 1) initialMetricsState).1.finished = true ∧
      (allFailRun (ethParams 2 1) (2 + 1 + 1) initialEthMetricsState).2.status = ConnStatus.error ∧
      (allFailRun (ethParams 2 1) (2 + 1 + 1) initialEthMetricsState).2.lastError = some (ethExhaustMsg 2) ∧
      (allFailRun (ethParams 2 1) (2 + 1 + 1) initialEthMetricsState).2.attemptsStarted = 2 ∧
      (allFailRun (ethParams 2 1) (2 + 1 + 1) initialEthMetricsState).1.finished = true) :=
  ⟨by decide, C1_finite_retry_exhaustion 2 (by decide) 1 1 1⟩

/-- The C3 scenario: max_attempts 3, configured retry_delay 2, running flag
set, connect attempts 1 and 2 fail and attempt 3 succeeds. -/
def c3Run : LoopState × EndpointState :=
  runSup (opcuaParams 3 2) (fun _ => true) (fun i => decide (2 ≤ i)) 3
    (initLoopState, initialMetricsState)

/-- C3 counterexample: in the two-failures-then-success scenario the status
field never takes the value Connecting (the code never assigns it), so the
observed status sequence is not Connecting, Connecting, Connecting,
Connected. -/
theorem C3_counterexample :
    ConnStatus.connecting ∉ c3Run.2.statusHistory ∧
      c3Run.2.statusHistory ≠
        [ConnStatus.connecting, ConnStatus.connecting, ConnStatus.connecting,
          ConnStatus.connected] := by decide

/-- C3 amended: in the scenario the status stays Disconnected through all
three attempts and becomes Connected on the third, exactly 2 retry-delay
waits happen, each of at least 2 time units, three attempts are started,
and the active-connection count becomes 1. -/
theorem C3_amended_scenario :
    c3Run.2.status = ConnStatus.connected ∧
      c3Run.2.statusHistory = [ConnStatus.disconnected, ConnStatus.connected] ∧
      c3Run.2.sleeps = [2, 2] ∧
      c3Run.2.sleeps.length = 2 ∧
      (∀ d ∈ c3Run.2.sleeps, 2 ≤ d) ∧
      c3Run.2.attemptsStarted = 3 ∧
      c3Run.1.finished = true ∧
      get_active_connections_count [c3Run.2] = 1 := by decide

/-- Endpoint state after an infinite-retry supervisor connects on its first
attempt. -/
def c4Connected : EndpointState :=
  (runSup (opcuaParams 0 2) (fun _ => true) (fun _ => true) 1
    (initLoopState, initialMetricsState)).2

/-- C4 counterexample: for an endpoint with max_attempts 0, after a
successful connect a failing health-monitor probe sets the status to Error,
so Error is reachable with an infinite retry policy. -/
theorem C4_counterexample :
    (monitorProbe false "Connection lost" 0 true c4Connected).status = ConnStatus.error := by
  decide

/-- Closed form of an infinite-retry loop whose attempts all fail under a
set running flag: it never finishes and only accumulates attempts and
sleeps. -/
theorem runSup_infinite_all_fail (cfg : Rat) :
    ∀ n, runSup (opcuaParams 0 cfg) (fun _ => true) (fun _ => false) n
        (initLoopState, initialMetricsState) =
      (initLoopState,
        { initialMetricsState with
            attemptsStarted := n
            sleeps := List.replicate n (retryDelayUsed cfg) }) := by
  intro n
  induction n with
  | zero => rfl
  | succ n ih =>
    show supStep (opcuaParams 0 cfg) true false _ = _
    rw [ih]
    unfold supStep
    simp [opcuaParams, initialMetricsState, initLoopState, List.replicate_succ']

/-- C4 amended: with max_attempts 0 the retry loop itself never terminates
while attempts fail and the running flag is set, starting one attempt per
step and never touching status or last error, and a cleared running flag
makes the loop exit at its next check without stamping Error; however, as
the counterexample shows, Error is still reachable for such an endpoint
through the health monitor. -/
theorem C4_amended_infinite_retry (cfg : Rat) (n a : Nat) (o : Bool) (st : EndpointState) :
    ((runSup (opcuaParams 0 cfg) (fun _ => true) (fun _ => false) n
        (initLoopState, initialMetricsState)).1.finished = false ∧
      (runSup (opcuaParams 0 cfg) (fun _ => true) (fun _ => false) n
        (initLoopState, initialMetricsState)).2.attemptsStarted = n ∧
      (runSup (opcuaParams 0 cfg) (fun _ => true) (fun _ => false) n
        (initLoopState, initialMetricsState)).2.status = ConnStatus.disconnected ∧
      (runSup (opcuaParams 0 cfg) (fun _ => true) (fun _ => false) n
        (initLoopState, initialMetricsState)).2.lastError = none) ∧
      supStep (opcuaParams 0 cfg) false o
          ({ attempt := a, finished := false, result := none }, st) =
        ({ attempt := a, finished := true, result := some false }, st) := by
  constructor
  · rw [runSup_infinite_all_fail cfg n]
    exact ⟨rfl, rfl, rfl, rfl⟩
  · unfold supStep
    simp [opcuaParams]

/-- Endpoint state after a bounded-retry supervisor connects on its first
attempt: the client handle is registered and the status is Connected. -/
def c2Connected : EndpointState :=
  (runSup (opcuaParams 3 2) (fun _ => true) (fun _ => true) 1
    (initLoopState, initialMetricsState)).2

/-- C2 counterexample: after a failed liveness probe the monitor leaves the
endpoint client handle registered, it is not removed from the registry as
the claim states. -/
theorem C2_counterexample :
    ¬ ((monitorProbe false "Connection lost" 0 true c2Connected).clientRegistered = false) := by
  decide

/-- C2 amended: on a failed liveness probe of a registered endpoint the
monitor sets status Error, records the error text, and spawns a fresh retry
loop, but leaves the client handle registered. -/
theorem C2_amended_probe_failure (st : EndpointState) (e : String) (lat : Rat)
    (h : st.clientRegistered = true) :
    (monitorProbe false e lat true st).status = ConnStatus.error ∧
      (monitorProbe false e lat true st).lastError = some e ∧
      (monitorProbe false e lat true st).clientRegistered = true ∧
      (monitorProbe false e lat true st).supervisors = st.supervisors + 1 := by
  unfold monitorProbe
  rw [if_pos h]
  simp [setStatus, h]

/-- Witness for the amended C2 at the connected scenario state. -/
theorem C2_amended_probe_failure_witness :
    c2Connected.clientRegistered = true ∧
      ((monitorProbe false "boom" 0 true c2Connected).status = ConnStatus.error ∧
        (monitorProbe false "boom" 0 true c2Connected).lastError = some "boom" ∧
        (monitorProbe false "boom" 0 true c2Connected).clientRegistered = true ∧
        (monitorProbe false "boom" 0 true c2Connected).supervisors = c2Connected.supervisors + 1) :=
  ⟨by decide, C2_amended_probe_failure c2Connected "boom" 0 (by decide)⟩

/-- C6 counterexample: after the startup retry loop finished, two failing
probes with no retry-loop completion in between leave two retry loops
running for the same endpoint. -/
theorem C6_counterexample :
    (monitorProbe false "down" 0 true
        (monitorProbe false "down" 0 true (supFinish c2Connected))).supervisors = 2 := by
  decide

/-- C6 amended: the monitor spawns a retry loop on every failed probe of a
registered endpoint without checking for one already running, so with one
loop active the spawn makes two. -/
theorem C6_amended_unconditional_spawn (st : EndpointState) (e : String) (lat : Rat)
    (h : st.clientRegistered = true) (h1 : 1 ≤ st.supervisors) :
    (monitorProbe false e lat true st).supervisors = st.supervisors + 1 ∧
      2 ≤ (monitorProbe false e lat true st).supervisors := by
  unfold monitorProbe
  rw [if_pos h]
  simp only [Bool.false_eq_true, if_false]
  refine ⟨rfl, ?_⟩
  simp [setStatus]
  omega

/-- Witness for the amended C6 at a state with one running retry loop. -/
theorem C6_amended_unconditional_spawn_witness :
    (monitorProbe false "down" 0 true (supFinish c2Connected)).clientRegistered = true ∧
      1 ≤ (monitorProbe false "down" 0 true (supFinish c2Connected)).supervisors ∧
      ((monitorProbe false "x" 0 true
          (monitorProbe false "down" 0 true (supFinish c2Connected))).supervisors =
        (monitorProbe false "down" 0 true (supFinish c2Connected)).supervisors + 1 ∧
        2 ≤ (monitorProbe false "x" 0 true
          (monitorProbe false "down" 0 true (supFinish c2Connected))).supervisors) :=
  ⟨by decide, by decide,
    C6_amended_unconditional_spawn (monitorProbe false "down" 0 true (supFinish c2Connected))
      "x" 0 (by decide) (by decide)⟩

end SFA
